import Mathlib

/-!
Verification of the MedAssistant dialogue router (`app.py`).

The Python source is shallowly embedded below.  Pure string/regex logic is
translated into executable Lean functions over `String` / `List Char`;
floating-point arithmetic is modelled over `ℝ`; the external collaborators
(geocoder, Overpass, Google CSE, the Gemini model) are modelled as an
explicit environment record `Env`, with Python exceptions rendered as
`Except`.  Decimal rendering of floats (Python string interpolation of
floats) is not expressible over `ℝ` and is taken as an environment
parameter (`fmtS`, `fmtF`).
-/

namespace MedAssistant

set_option maxRecDepth 100000

/-- Source: `MAX_HISTORY_ITEMS = 8`. -/
def MAX_HISTORY_ITEMS : Nat := 8

/-- Source: `MAX_HISTORY_CHARS = 200`. -/
def MAX_HISTORY_CHARS : Nat := 200

/-! ### Regex machinery

The source uses `re` patterns of the shape `\b(w1|w2|...)\b` (word
alternatives between word boundaries, case-insensitive), plus
`\b\d{5}(?:-\d{4})?\b` for ZIP codes and `\b(\d{1,2})\b` for counts.
They are embedded as scans over the character list: a regex `search`
succeeds iff some position of the text admits a match.  `\w` is modelled
as ASCII alphanumeric or underscore. -/

def isWordChar (c : Char) : Bool := c.isAlphanum || c == '_'

/-- A word boundary holds before the scan position (all our patterns start
with a word character, so the boundary reduces to: no preceding word char). -/
def prevBoundary : Option Char → Bool
  | none => true
  | some c => !(isWordChar c)

/-- A word boundary holds after a match (all our patterns end with a word
character, so the boundary reduces to: no following word char). -/
def afterBoundary : List Char → Bool
  | [] => true
  | c :: _ => !(isWordChar c)

/-- Case-insensitive literal match of a (lowercase) pattern at the head of
the text; returns the remaining text on success. -/
def matchChars : List Char → List Char → Option (List Char)
  | [], s => some s
  | _ :: _, [] => none
  | c :: w, c2 :: s => if c2.toLower == c then matchChars w s else none

/-- Does one alternative word match here, followed by a word boundary? -/
def wordAt (w : List Char) (s : List Char) : Bool :=
  match matchChars w s with
  | some rest => afterBoundary rest
  | none => false

def anyWordAt (ws : List (List Char)) (s : List Char) : Bool :=
  ws.any (fun w => wordAt w s)

/-- Embeds `re.search` for a `\b(w1|...|wn)\b` pattern: scan every position. -/
def searchWords (ws : List (List Char)) : Option Char → List Char → Bool
  | _, [] => false
  | prev, c :: rest =>
    (prevBoundary prev && anyWordAt ws (c :: rest)) || searchWords ws (some c) rest

/-- Alternatives of `PHARM_INTENT_RE`: `pharmacy|pharmacies|drug ?store|chemist|chemists`. -/
def pharmWords : List (List Char) :=
  ["pharmacy".toList, "pharmacies".toList, "drugstore".toList,
   "drug store".toList, "chemist".toList, "chemists".toList]

/-- Source: `bool(PHARM_INTENT_RE.search(text))`. -/
def pharm_intent_match (t : String) : Bool := searchWords pharmWords none t.toList

/-- Alternatives of `FOLLOWUP_WORDS_RE`: `closest|nearest|nearby|more`. -/
def followupWords : List (List Char) :=
  ["closest".toList, "nearest".toList, "nearby".toList, "more".toList]

/-- Source: `bool(FOLLOWUP_WORDS_RE.search(text))`. -/
def followup_match (t : String) : Bool := searchWords followupWords none t.toList

/-- Plain-word alternatives of `HEALTH_INTENT_RE` (the `side\s*effect`
alternative is handled separately by `sideEffectAt`). -/
def healthWords : List (List Char) :=
  ["ibuprofen".toList, "acetaminophen".toList, "aspirin".toList, "tylenol".toList,
   "advil".toList, "motrin".toList, "aleve".toList,
   "symptom".toList, "symptoms".toList, "diagnos".toList, "treat".toList,
   "treatment".toList, "dose".toList, "dosage".toList,
   "contraindicat".toList, "interact".toList, "medication".toList,
   "medicine".toList, "drug".toList, "vaccine".toList, "vaccination".toList,
   "condition".toList, "disease".toList, "infection".toList, "injury".toList,
   "pain".toList, "fever".toList, "cough".toList, "diarrhea".toList,
   "asthma".toList, "hypertension".toList, "diabetes".toList, "cancer".toList,
   "migraine".toList, "allergy".toList, "dermatitis".toList, "rash".toList,
   "anxiety".toList, "depression".toList]

/-- The `side\s*effect` alternative: `side`, any run of whitespace (possibly
empty), `effect`, then a word boundary. -/
def sideEffectAt (s : List Char) : Bool :=
  match matchChars "side".toList s with
  | none => false
  | some rest =>
    match matchChars "effect".toList (rest.dropWhile (fun c => c.isWhitespace)) with
    | some r2 => afterBoundary r2
    | none => false

def healthSearch : Option Char → List Char → Bool
  | _, [] => false
  | prev, c :: rest =>
    (prevBoundary prev && (anyWordAt healthWords (c :: rest) || sideEffectAt (c :: rest)))
      || healthSearch (some c) rest

/-- Source: `bool(HEALTH_INTENT_RE.search(text))`. -/
def health_intent_match (t : String) : Bool := healthSearch none t.toList

/-- Source: `is_health_question` — pharmacy intent suppresses health intent. -/
def is_health_question (t : String) : Bool :=
  if pharm_intent_match t then false else health_intent_match t

/-- Match of `\d{5}(?:-\d{4})?\b` at the current position (greedy optional
plus-four group with backtracking, as in Python `re`). -/
def zipAt : List Char → Option (List Char)
  | d1 :: d2 :: d3 :: d4 :: d5 :: rest =>
    if d1.isDigit && d2.isDigit && d3.isDigit && d4.isDigit && d5.isDigit then
      match rest with
      | '-' :: e1 :: e2 :: e3 :: e4 :: rest2 =>
        if e1.isDigit && e2.isDigit && e3.isDigit && e4.isDigit && afterBoundary rest2 then
          some [d1, d2, d3, d4, d5, '-', e1, e2, e3, e4]
        else if afterBoundary rest then some [d1, d2, d3, d4, d5] else none
      | _ => if afterBoundary rest then some [d1, d2, d3, d4, d5] else none
    else none
  | _ => none

def zipScan : Option Char → List Char → Option String
  | _, [] => none
  | prev, c :: rest =>
    match (if prevBoundary prev then zipAt (c :: rest) else none) with
    | some m => some (String.mk m)
    | none => zipScan (some c) rest

/-- Source: `ZIP_RE.search(text)` returning the matched token. -/
def zip_search (t : String) : Option String := zipScan none t.toList

/-- Match of `(\d{1,2})\b` at the current position (greedy, with
backtracking from two digits to one, as in Python `re`). -/
def countAt : List Char → Option (List Char)
  | [] => none
  | [d1] => if d1.isDigit then some [d1] else none
  | d1 :: d2 :: rest =>
    if d1.isDigit then
      if d2.isDigit then (if afterBoundary rest then some [d1, d2] else none)
      else if !(isWordChar d2) then some [d1] else none
    else none

def countScan : Option Char → List Char → Option (List Char)
  | _, [] => none
  | prev, c :: rest =>
    match (if prevBoundary prev then countAt (c :: rest) else none) with
    | some m => some m
    | none => countScan (some c) rest

/-- Decimal value of a digit run. -/
def digitsVal (l : List Char) : Nat := l.foldl (fun a c => a * 10 + (c.toNat - 48)) 0

/-- Source: `extract_requested_count` — first 1-2 digit token, clamped by
`max(1, min(20, n))`; `dflt` when absent (the source default is 10, passed
explicitly at every call site). -/
def extract_requested_count (text : String) (dflt : Nat) : Nat :=
  match countScan none text.toList with
  | none => dflt
  | some ds => max 1 (min 20 (digitsVal ds))

/-- Python `str.strip()`: drop leading and trailing whitespace.  (Defined
structurally over the character list so that it evaluates by reduction.) -/
def py_strip (s : String) : String :=
  String.mk
    (((s.toList.dropWhile (fun c => c.isWhitespace)).reverse.dropWhile
        (fun c => c.isWhitespace)).reverse)

/-! ### History buffer -/

/-- One stored turn.  The source stores `{"role": r, "parts": [{"text": t}]}`
with a single-element `parts` list; the text is modelled directly. -/
structure Turn where
  role : String
  text : String
  deriving DecidableEq

/-- Source: `_truncate` — texts longer than the budget are cut to the first
`MAX_HISTORY_CHARS` characters and an ellipsis marker is appended. -/
def _truncate (text : String) : String :=
  if text.length ≤ MAX_HISTORY_CHARS then text
  else String.mk (text.toList.take MAX_HISTORY_CHARS) ++ "…"

/-- Source: `append_history` — append the user/model pair (each truncated),
then keep only the last `MAX_HISTORY_ITEMS` turns (`history[-8:]`). -/
def append_history (history : List Turn) (user_message reply_text : String) : List Turn :=
  let h := history ++ [⟨"user", _truncate user_message⟩, ⟨"model", _truncate reply_text⟩]
  if h.length > MAX_HISTORY_ITEMS then h.drop (h.length - MAX_HISTORY_ITEMS) else h

/-! ### Haversine distance (floats modelled over `ℝ`) -/

/-- Source: `math.radians`. -/
noncomputable def radians (x : ℝ) : ℝ := x * Real.pi / 180

/-- Source: `math.atan2`, on real numbers (the usual mathematical
definition by quadrant; `atan2 0 0 = 0` as in Python). -/
noncomputable def atan2 (y x : ℝ) : ℝ :=
  if 0 < x then Real.arctan (y / x)
  else if x < 0 then
    (if 0 ≤ y then Real.arctan (y / x) + Real.pi else Real.arctan (y / x) - Real.pi)
  else if 0 < y then Real.pi / 2
  else if y < 0 then -(Real.pi / 2)
  else 0

/-- Source: `haversine_km` — great-circle distance, Earth radius 6371 km. -/
noncomputable def haversine_km (lat1 lon1 lat2 lon2 : ℝ) : ℝ :=
  let R : ℝ := 6371.0
  let phi1 := radians lat1
  let phi2 := radians lat2
  let dphi := radians (lat2 - lat1)
  let dlambda := radians (lon2 - lon1)
  let a := Real.sin (dphi / 2) ^ 2 +
    Real.cos phi1 * Real.cos phi2 * Real.sin (dlambda / 2) ^ 2
  let c := 2 * atan2 (Real.sqrt a) (Real.sqrt (1 - a))
  R * c

/-! ### POI records and the distance ranker -/

/-- A raw Overpass element: optional direct coordinates (node), optional
`center` coordinates (way/relation), and a tag dictionary. -/
structure Element where
  lat : Option ℝ
  lon : Option ℝ
  center : Option (ℝ × ℝ)
  tags : List (String × String)

/-- Python `dict.get` over the tag dictionary. -/
def tag_get (tags : List (String × String)) (k : String) : Option String :=
  (tags.find? (fun p => p.1 == k)).map (fun p => p.2)

/-- Source: `_element_coords` — prefer direct `lat`/`lon`, else `center`. -/
def _element_coords (el : Element) : Option (ℝ × ℝ) :=
  match el.lat, el.lon with
  | some la, some lo => some (la, lo)
  | _, _ => el.center

/-- Source: `tags.get("name") or "Pharmacy"` (empty string is falsy). -/
def poi_name (tags : List (String × String)) : String :=
  match tag_get tags "name" with
  | some s => if s = "" then "Pharmacy" else s
  | none => "Pharmacy"

/-- Source: comma-join of the non-empty address parts, or the fallback. -/
def address_str (tags : List (String × String)) : String :=
  let parts := [tag_get tags "addr:housenumber", tag_get tags "addr:street",
    tag_get tags "addr:city", tag_get tags "addr:state", tag_get tags "addr:postcode"]
  let kept := parts.filterMap (fun p =>
    match p with
    | some s => if s = "" then none else some s
    | none => none)
  let joined := String.intercalate ", " kept
  if joined = "" then "Address unavailable" else joined

/-- One iteration of the `for el in elements` loop of `format_pharmacy_list`:
skip the element if no coordinate resolves, else produce the
`(distance_km, rendered line)` pair.  `fmtS` renders a float as Python
string interpolation does, `fmtF` as `"{:.1f}"` does. -/
noncomputable def pharmacy_row (fmtS fmtF : ℝ → String) (lat lon : ℝ) (el : Element) :
    Option (ℝ × String) :=
  match _element_coords el with
  | none => none
  | some (el_lat, el_lon) =>
    let name := poi_name el.tags
    let distance_km := haversine_km lat lon el_lat el_lon
    let address := address_str el.tags
    let map_link := "https://www.openstreetmap.org/?mlat=" ++ fmtS el_lat ++ "&mlon=" ++
      fmtS el_lon ++ "#map=18/" ++ fmtS el_lat ++ "/" ++ fmtS el_lon
    some (distance_km, name ++ " — " ++ address ++ " — " ++ fmtF distance_km ++ " km\n" ++ map_link)

/-- The `rows` list built by `format_pharmacy_list` before sorting. -/
noncomputable def pharmacy_rows (fmtS fmtF : ℝ → String) (lat lon : ℝ)
    (elements : List Element) : List (ℝ × String) :=
  elements.filterMap (pharmacy_row fmtS fmtF lat lon)

/-- Source: `rows.sort(key=lambda x: x[0])` — Python list sort is stable,
embedded as a stable merge sort on the distance component. -/
noncomputable def sorted_rows (fmtS fmtF : ℝ → String) (lat lon : ℝ)
    (elements : List Element) : List (ℝ × String) :=
  (pharmacy_rows fmtS fmtF lat lon elements).mergeSort (fun a b => decide (a.1 ≤ b.1))

/-- Source: `format_pharmacy_list` — sort, take `limit`, render. -/
noncomputable def format_pharmacy_list (fmtS fmtF : ℝ → String) (lat lon : ℝ)
    (elements : List Element) (limit : Nat) : String :=
  let rows := sorted_rows fmtS fmtF lat lon elements
  if rows.isEmpty then
    "No pharmacies found within 8 km. Try a different ZIP or larger radius."
  else
    String.intercalate "\n"
      ("Here are pharmacies near you (sorted by distance):" ::
        (rows.take limit).map (fun r => "- " ++ r.2))

/-! ### Session state, environment and the `/api/chat` handler -/

/-- The per-session state: `session["history"]`, `session["awaiting_zip"]`
(the source only ever stores the string `"pharmacies"`), and
`session["pharmacy_limit"]`.  A missing key is `none`. -/
structure SessionState where
  history : List Turn
  awaiting_zip : Option String
  pharmacy_limit : Option Nat
  deriving DecidableEq

/-- The handler outcome: a normal `{"reply": ...}` JSON, an
`{"error": ...}` JSON with an HTTP status, or an exception escaping the
handler (Flask then produces a 500). -/
inductive ApiResult where
  | reply (text : String)
  | errorResp (error : String) (status : Nat)
  | raised (message : String)
  deriving DecidableEq

/-- A filtered Google CSE search result. -/
structure SearchResult where
  title : String
  link : String
  snippet : String
  deriving DecidableEq

/-- The external collaborators, modelled as an explicit environment:
`geocode_zip` and `overpass_find_pharmacies` are the OSM adapters (their
internal exception handling already collapses failures to `none`/`[]` in
the source, so their embedded type is the collapsed one); `cse_search` is
the Google CSE adapter (failures and domain filtering collapse to a
result list, possibly empty); `get_model` models `get_model()`, which
raises when the API key is missing; `send_message` models
`start_chat(history=h).send_message(prompt)`, which may raise.
`fmtS`/`fmtF` render floats as Python `str()` / `"{:.1f}"` would. -/
structure Env where
  geocode_zip : String → Option (ℝ × ℝ)
  overpass_find_pharmacies : ℝ → ℝ → List Element
  cse_search : String → Nat → List SearchResult
  get_model : Except String Unit
  send_message : List Turn → String → Except String String
  fmtS : ℝ → String
  fmtF : ℝ → String

/-- The numbered source block for one CSE result, as built by the prompt
loop of `answer_health_with_cse`. -/
def source_block (idx : Nat) (r : SearchResult) : List String :=
  ("[" ++ toString idx ++ "] " ++ r.title ++ " — " ++ r.link) ::
    (if r.snippet = "" then [""] else ["Snippet: " ++ r.snippet, ""])

def source_blocks : Nat → List SearchResult → List String
  | _, [] => []
  | idx, r :: rs => source_block idx r ++ source_blocks (idx + 1) rs

/-- The constrained prompt built by `answer_health_with_cse`
(`"\n".join(lines + instructions)`). -/
def health_prompt (user_question : String) (results : List SearchResult) : String :=
  let header : List String :=
    ["You are a cautious health information assistant.",
     "You must use ONLY the sources provided below.",
     "If the sources are insufficient or off-topic, say you cannot answer.",
     "Cite sources as [1], [2], etc., and include the URL next to each citation.",
     "Avoid diagnosis or prescribing. Provide general, educational guidance only.",
     "Add this disclaimer at the end: This is educational information, not medical advice.",
     "",
     "Question: " ++ user_question,
     "",
     "Sources:"]
  let instructions : List String :=
    ["Instructions:",
     "- Answer concisely in 4-8 sentences.",
     "- Use only information supported by the sources.",
     "- Cite claims with [number] and include the URL in parentheses.",
     "- If evidence is insufficient, say you cannot answer.",
     "- End with the disclaimer."]
  String.intercalate "\n" (header ++ source_blocks 1 results ++ instructions)

/-- Source: `answer_health_with_cse`.  `get_model()` is called OUTSIDE the
`try`, so its exception propagates (`Except.error`); the `try` around
`send_message` converts any exception into `None` (`Except.ok none`), as
does an empty generation. -/
def answer_health_with_cse (env : Env) (user_question : String) :
    Except String (Option String) :=
  let results := env.cse_search user_question 5
  if results.isEmpty then Except.ok none
  else
    let prompt := health_prompt user_question results
    match env.get_model with
    | Except.error e => Except.error e
    | Except.ok _ =>
      match env.send_message [] prompt with
      | Except.error _ => Except.ok none
      | Except.ok t =>
        let bot_text := py_strip t
        if bot_text = "" then Except.ok none else Except.ok (some bot_text)

/-- The `awaiting == "pharmacies"` branch of `chat_api`. -/
noncomputable def awaiting_branch (env : Env) (st : SessionState)
    (user_message : String) (m_zip : Option String) : ApiResult × SessionState :=
  match m_zip with
  | none => (ApiResult.reply "Please enter a valid 5-digit ZIP code (e.g., 10001).", st)
  | some zip_code =>
    match env.geocode_zip zip_code with
    | none =>
      (ApiResult.reply "Sorry, I could not find that ZIP code. Please try another.",
       { st with awaiting_zip := none, pharmacy_limit := none })
    | some (lat, lon) =>
      let elements := env.overpass_find_pharmacies lat lon
      let limit := st.pharmacy_limit.getD 10
      let reply_text := format_pharmacy_list env.fmtS env.fmtF lat lon elements limit
      (ApiResult.reply reply_text,
       { history := append_history st.history user_message reply_text,
         awaiting_zip := none, pharmacy_limit := none })

/-- The one-shot branch of `chat_api` (pharmacy/follow-up intent with a ZIP
in the same message). -/
noncomputable def one_shot_branch (env : Env) (st : SessionState)
    (user_message zip_code : String) : ApiResult × SessionState :=
  match env.geocode_zip zip_code with
  | none => (ApiResult.reply "Sorry, I could not find that ZIP code. Please try another.", st)
  | some (lat, lon) =>
    let limit := extract_requested_count user_message 10
    let elements := env.overpass_find_pharmacies lat lon
    let reply_text := format_pharmacy_list env.fmtS env.fmtF lat lon elements limit
    (ApiResult.reply reply_text,
     { st with history := append_history st.history user_message reply_text })

/-- The clarification branch of `chat_api` (pharmacy/follow-up intent
without a ZIP): enter the awaiting state and capture the limit. -/
def clarify_branch (st : SessionState) (user_message : String) : ApiResult × SessionState :=
  (ApiResult.reply "Please enter your 5-digit ZIP code to find nearby pharmacies.",
   { st with awaiting_zip := some "pharmacies",
             pharmacy_limit := some (extract_requested_count user_message 10) })

/-- The fixed decline text returned when the health answerer yields `None`. -/
def decline_text : String :=
  "I can\x27t answer that health question based on the approved sources. Please consult a qualified healthcare professional."

/-- The health branch of `chat_api`: an `Except.error` from
`answer_health_with_cse` (i.e. a `get_model()` exception) is uncaught and
escapes the handler. -/
def health_branch (env : Env) (st : SessionState) (user_message : String) :
    ApiResult × SessionState :=
  match answer_health_with_cse env user_message with
  | Except.error e => (ApiResult.raised e, st)
  | Except.ok (some answer) =>
    (ApiResult.reply answer, { st with history := append_history st.history user_message answer })
  | Except.ok none =>
    (ApiResult.reply decline_text,
     { st with history := append_history st.history user_message decline_text })

/-- The default branch of `chat_api`: delegate to the model with the last
at most 4 history turns.  A `get_model()` exception escapes the handler; a
`send_message` exception is caught and returned as a 500 error JSON. -/
def general_branch (env : Env) (st : SessionState) (user_message : String) :
    ApiResult × SessionState :=
  let history := st.history
  let short_history := if history.length > 4 then history.drop (history.length - 4) else history
  match env.get_model with
  | Except.error e => (ApiResult.raised e, st)
  | Except.ok _ =>
    match env.send_message short_history user_message with
    | Except.error exc => (ApiResult.errorResp exc 500, st)
    | Except.ok bot_text =>
      (ApiResult.reply bot_text,
       { st with history := append_history st.history user_message bot_text })

/-- Source: `chat_api` — strip the message, reject an empty one, then
route in the source's fixed priority order. -/
noncomputable def chat_api (env : Env) (st : SessionState) (raw : String) :
    ApiResult × SessionState :=
  let user_message := py_strip raw
  if user_message = "" then (ApiResult.errorResp "Message is required" 400, st)
  else
    let m_zip := zip_search user_message
    let looks_like_pharmacy_request :=
      pharm_intent_match user_message || followup_match user_message
    if st.awaiting_zip = some "pharmacies" then
      awaiting_branch env st user_message m_zip
    else if looks_like_pharmacy_request then
      match m_zip with
      | some zip_code => one_shot_branch env st user_message zip_code
      | none => clarify_branch st user_message
    else if is_health_question user_message then
      health_branch env st user_message
    else
      general_branch env st user_message

/-- Source: `reset_chat` — pop `history`, `awaiting_zip`, `pharmacy_limit`. -/
def reset_chat (_st : SessionState) : SessionState :=
  { history := [], awaiting_zip := none, pharmacy_limit := none }

/-! ## Shared concrete fixtures for witnesses and counterexamples -/

/-- A benign environment: geocoding always misses, Overpass and CSE return
nothing, the model answers `"ok"`. -/
def env0 : Env :=
  { geocode_zip := fun _ => none
    overpass_find_pharmacies := fun _ _ => []
    cse_search := fun _ _ => []
    get_model := Except.ok ()
    send_message := fun _ _ => Except.ok "ok"
    fmtS := fun _ => ""
    fmtF := fun _ => "" }

/-- An environment whose language-model call raises, while the CSE search
returns one usable result. -/
def env_lm_fail : Env :=
  { geocode_zip := fun _ => none
    overpass_find_pharmacies := fun _ _ => []
    cse_search := fun _ _ => [{ title := "t", link := "u", snippet := "" }]
    get_model := Except.ok ()
    send_message := fun _ _ => Except.error "boom"
    fmtS := fun _ => ""
    fmtF := fun _ => "" }

/-- A fresh session. -/
def st_empty : SessionState := { history := [], awaiting_zip := none, pharmacy_limit := none }

/-- A session in the awaiting-postal-code state with a captured limit. -/
def st_await : SessionState :=
  { history := [], awaiting_zip := some "pharmacies", pharmacy_limit := some 10 }

/-! ## Claim C8: haversine identity and symmetry -/

theorem atan2_zero_one : atan2 0 1 = 0 := by
  unfold atan2
  rw [if_pos one_pos]
  simp [Real.arctan_zero]

theorem sin_radians_sub_sq (x y : ℝ) :
    Real.sin (radians (x - y) / 2) ^ 2 = Real.sin (radians (y - x) / 2) ^ 2 := by
  have h : radians (x - y) / 2 = -(radians (y - x) / 2) := by
    unfold radians; ring
  rw [h, Real.sin_neg, neg_sq]

/-- C8: the haversine distance of a coordinate to itself is 0, and the
haversine distance is symmetric in its two coordinates. -/
theorem haversine_self_and_symm :
    (∀ lat lon : ℝ, haversine_km lat lon lat lon = 0) ∧
    (∀ lat1 lon1 lat2 lon2 : ℝ,
      haversine_km lat1 lon1 lat2 lon2 = haversine_km lat2 lon2 lat1 lon1) := by
  constructor
  · intro lat lon
    unfold haversine_km radians
    simp [sub_self, Real.sin_zero, Real.sqrt_zero, Real.sqrt_one, atan2_zero_one]
  · intro lat1 lon1 lat2 lon2
    unfold haversine_km
    have ha :
        Real.sin (radians (lat2 - lat1) / 2) ^ 2 +
          Real.cos (radians lat1) * Real.cos (radians lat2) *
            Real.sin (radians (lon2 - lon1) / 2) ^ 2 =
        Real.sin (radians (lat1 - lat2) / 2) ^ 2 +
          Real.cos (radians lat2) * Real.cos (radians lat1) *
            Real.sin (radians (lon1 - lon2) / 2) ^ 2 := by
      rw [sin_radians_sub_sq lat2 lat1, sin_radians_sub_sq lon2 lon1]
      ring
    simp only [ha]

/-! ## Claim C2: stored turn texts and the character budget

The source truncates to the first 200 characters and then appends the
one-character ellipsis marker, so a long text is stored with 201
characters — one more than the claimed budget of 200. -/

theorem string_length_mk (l : List Char) : (String.mk l).length = l.length := rfl

theorem string_toList_length (s : String) : s.toList.length = s.length :=
  String.length_data s

theorem truncate_length_le (s : String) :
    (_truncate s).length ≤ MAX_HISTORY_CHARS + 1 := by
  unfold _truncate
  split
  · omega
  · rw [String.length_append, string_length_mk, List.length_take, string_toList_length]
    rw [show ("…" : String).length = 1 from rfl]
    omega

/-- C2 counterexample: appending a 201-character user text stores a turn
whose text has 201 characters, exceeding the claimed 200-character budget. -/
theorem stored_turn_exceeds_200 :
    (append_history [] (String.mk (List.replicate 201 'a')) "ok").map
        (fun t => t.text.length) = [201, 2] ∧ 200 < 201 := by
  constructor
  · decide
  · omega

/-- C2 (amended): if every turn already in the buffer has text of at most
`MAX_HISTORY_CHARS + 1` characters, then after `append_history` every
stored turn text has at most `MAX_HISTORY_CHARS + 1` characters (200
content characters plus the one-character ellipsis marker), and a text
longer than `MAX_HISTORY_CHARS` characters is stored as its first
`MAX_HISTORY_CHARS` characters followed by the ellipsis marker. -/
theorem append_history_char_budget (h : List Turn) (u r : String)
    (hh : ∀ t ∈ h, t.text.length ≤ MAX_HISTORY_CHARS + 1) :
    (∀ t ∈ append_history h u r, t.text.length ≤ MAX_HISTORY_CHARS + 1) ∧
    (MAX_HISTORY_CHARS < u.length →
      _truncate u = String.mk (u.toList.take MAX_HISTORY_CHARS) ++ "…" ∧
      (_truncate u).length = MAX_HISTORY_CHARS + 1) := by
  constructor
  · intro t ht
    unfold append_history at ht
    simp only at ht
    have ht' : t ∈ h ++ [⟨"user", _truncate u⟩, ⟨"model", _truncate r⟩] := by
      split at ht
      · exact List.mem_of_mem_drop ht
      · exact ht
    rcases List.mem_append.1 ht' with hmem | hmem
    · exact hh t hmem
    · rcases List.mem_cons.1 hmem with hEq | hmem2
      · subst hEq; exact truncate_length_le u
      · rcases List.mem_cons.1 hmem2 with hEq | hmem3
        · subst hEq; exact truncate_length_le r
        · cases hmem3
  · intro hu
    unfold _truncate
    rw [if_neg (by omega)]
    refine ⟨rfl, ?_⟩
    rw [String.length_append, string_length_mk, List.length_take, string_toList_length]
    rw [show ("…" : String).length = 1 from rfl]
    omega

/-- C2 witness: the amended bound at a concrete input. -/
theorem append_history_char_budget_witness :
    (∀ t ∈ ([] : List Turn), t.text.length ≤ MAX_HISTORY_CHARS + 1) ∧
    ((∀ t ∈ append_history [] (String.mk (List.replicate 201 'a')) "ok",
        t.text.length ≤ MAX_HISTORY_CHARS + 1) ∧
      (MAX_HISTORY_CHARS < (String.mk (List.replicate 201 'a')).length →
        _truncate (String.mk (List.replicate 201 'a')) =
          String.mk ((String.mk (List.replicate 201 'a')).toList.take MAX_HISTORY_CHARS) ++ "…" ∧
        (_truncate (String.mk (List.replicate 201 'a'))).length = MAX_HISTORY_CHARS + 1)) :=
  ⟨fun t ht => absurd ht (List.not_mem_nil t),
   append_history_char_budget [] (String.mk (List.replicate 201 'a')) "ok"
     (fun t ht => absurd ht (List.not_mem_nil t))⟩

/-! ## Claim C7: the history buffer is a sliding window of at most 8 turns -/

/-- The semantics of the Python slice `l[-MAX_HISTORY_ITEMS:]` (for any
length, including lists that already fit). -/
def slide_window (l : List Turn) : List Turn := l.drop (l.length - MAX_HISTORY_ITEMS)

theorem append_history_eq_slide (h : List Turn) (u r : String) :
    append_history h u r =
      slide_window (h ++ [⟨"user", _truncate u⟩, ⟨"model", _truncate r⟩]) := by
  unfold append_history slide_window
  simp only
  split
  · rfl
  · next hle =>
    have h0 : (h ++ [⟨"user", _truncate u⟩, ⟨"model", _truncate r⟩] : List Turn).length -
        MAX_HISTORY_ITEMS = 0 := by
      simp only [List.length_append, List.length_cons, List.length_nil] at hle ⊢
      omega
    rw [h0, List.drop_zero]

theorem append_history_length_le (h : List Turn) (u r : String) :
    (append_history h u r).length ≤ MAX_HISTORY_ITEMS := by
  unfold append_history
  simp only
  split
  · rw [List.length_drop]; omega
  · simp only [List.length_append, List.length_cons, List.length_nil] at *
    omega

theorem slide_window_append (x y : List Turn) :
    slide_window (slide_window x ++ y) = slide_window (x ++ y) := by
  unfold slide_window
  by_cases hx : x.length ≤ MAX_HISTORY_ITEMS
  · rw [show x.length - MAX_HISTORY_ITEMS = 0 by omega, List.drop_zero]
  · have hlen : (x.drop (x.length - MAX_HISTORY_ITEMS)).length = MAX_HISTORY_ITEMS := by
      rw [List.length_drop]; omega
    rw [List.length_append, List.length_append, hlen]
    rw [List.drop_append_eq_append_drop, List.drop_append_eq_append_drop]
    rw [List.drop_drop, hlen]
    congr 1
    · congr 1
      omega
    · congr 1
      omega

/-- The untrimmed transcript that a sequence of `(user, reply)` exchanges
would produce: every pair appended (truncated), nothing dropped. -/
def full_transcript : List (String × String) → List Turn
  | [] => []
  | p :: ps => ⟨"user", _truncate p.1⟩ :: ⟨"model", _truncate p.2⟩ :: full_transcript ps

/-- Running `append_history` once per exchange, in order, starting from a
given buffer. -/
def run_appends : List Turn → List (String × String) → List Turn
  | h, [] => h
  | h, p :: ps => run_appends (append_history h p.1 p.2) ps

theorem run_appends_eq_slide (pairs : List (String × String)) :
    ∀ h : List Turn, h.length ≤ MAX_HISTORY_ITEMS →
      run_appends h pairs = slide_window (h ++ full_transcript pairs) := by
  induction pairs with
  | nil =>
    intro h hh
    unfold run_appends full_transcript slide_window
    rw [List.append_nil, show h.length - MAX_HISTORY_ITEMS = 0 by omega, List.drop_zero]
  | cons p ps ih =>
    intro h _
    unfold run_appends
    rw [ih (append_history h p.1 p.2) (append_history_length_le h p.1 p.2)]
    rw [append_history_eq_slide, slide_window_append, List.append_assoc]
    rfl

/-- C7: after any sequence of `append_history` operations starting from an
empty buffer, the buffer holds at most 8 turns, it is a suffix of the
untrimmed transcript (so the oldest turns are dropped first and the most
recent are retained), and its length is the minimum of the untrimmed
length and 8 (so appends are never rejected). -/
theorem history_sliding_window (pairs : List (String × String)) :
    (run_appends [] pairs).length ≤ MAX_HISTORY_ITEMS ∧
    (run_appends [] pairs) <:+ full_transcript pairs ∧
    (run_appends [] pairs).length = min (full_transcript pairs).length MAX_HISTORY_ITEMS := by
  have heq : run_appends [] pairs = slide_window (full_transcript pairs) := by
    have := run_appends_eq_slide pairs [] (by simp [MAX_HISTORY_ITEMS])
    simpa using this
  rw [heq]
  unfold slide_window
  refine ⟨?_, List.drop_suffix _ _, ?_⟩
  · rw [List.length_drop]; omega
  · rw [List.length_drop]; omega

/-! ## Claim C10: the history strictly alternates user/model pairs -/

/-- The buffer consists of consecutive `user`/`model` pairs: even length,
strict alternation, each user turn immediately followed by its model reply. -/
def paired : List Turn → Bool
  | [] => true
  | u :: m :: rest => u.role == "user" && (m.role == "model" && paired rest)
  | _ => false

theorem paired_append_pair (u m : String) (h : List Turn) (hp : paired h = true) :
    paired (h ++ [⟨"user", u⟩, ⟨"model", m⟩]) = true := by
  induction h using paired.induct <;> simp_all [paired]

theorem paired_drop_two : ∀ l : List Turn, paired l = true → paired (l.drop 2) = true
  | [], _ => rfl
  | [x], h => by simp [paired] at h
  | u :: m :: rest, h => by
    simp only [paired, Bool.and_eq_true] at h
    simpa using h.2.2

theorem paired_drop_even (k : Nat) : ∀ l : List Turn, paired l = true →
    paired (l.drop (2 * k)) = true := by
  induction k with
  | zero => intro l h; simpa using h
  | succ n ih =>
    intro l h
    have hstep : l.drop (2 * (n + 1)) = (l.drop (2 * n)).drop 2 := by
      rw [List.drop_drop]
      congr 1
    rw [hstep]
    exact paired_drop_two _ (ih l h)

theorem paired_length_even (l : List Turn) (hp : paired l = true) : l.length % 2 = 0 := by
  induction l using paired.induct <;> (simp_all [paired]; try omega)

theorem paired_append_history (h : List Turn) (u r : String) (hp : paired h = true) :
    paired (append_history h u r) = true := by
  rw [append_history_eq_slide]
  unfold slide_window
  have hp2 : paired (h ++ [⟨"user", _truncate u⟩, ⟨"model", _truncate r⟩]) = true :=
    paired_append_pair _ _ h hp
  have heven : h.length % 2 = 0 := paired_length_even h hp
  have hlen : (h ++ [⟨"user", _truncate u⟩, ⟨"model", _truncate r⟩] : List Turn).length =
      h.length + 2 := by
    simp
  obtain ⟨k, hk⟩ : ∃ k,
      (h ++ [⟨"user", _truncate u⟩, ⟨"model", _truncate r⟩] : List Turn).length -
        MAX_HISTORY_ITEMS = 2 * k := by
    refine ⟨((h.length + 2) - MAX_HISTORY_ITEMS) / 2, ?_⟩
    rw [hlen]
    have h8 : MAX_HISTORY_ITEMS = 8 := rfl
    omega
  rw [hk]
  exact paired_drop_even k _ hp2

/-- Every branch of `chat_api` either leaves the history untouched or
updates it through `append_history`. -/
theorem chat_api_history_cases (env : Env) (st : SessionState) (raw : String) :
    (chat_api env st raw).2.history = st.history ∨
    ∃ u r, (chat_api env st raw).2.history = append_history st.history u r := by
  unfold chat_api
  simp only
  split
  · left; rfl
  · split
    · unfold awaiting_branch
      split
      · left; rfl
      · split
        · left; rfl
        · right; exact ⟨_, _, rfl⟩
    · split
      · split
        · unfold one_shot_branch
          split
          · left; rfl
          · right; exact ⟨_, _, rfl⟩
        · left; rfl
      · split
        · unfold health_branch
          split
          · left; rfl
          · right; exact ⟨_, _, rfl⟩
          · right; exact ⟨_, _, rfl⟩
        · unfold general_branch
          simp only
          split
          · left; rfl
          · split
            · left; rfl
            · right; exact ⟨_, _, rfl⟩

/-- C10: every operation preserves the pairing invariant — `append_history`
always appends a user/model pair and the trim size is even, so trimming
never splits a pair; `chat_api` only mutates the history through
`append_history`; `reset_chat` empties the buffer. -/
theorem operations_preserve_paired :
    (∀ (h : List Turn) (u r : String), paired h = true →
      paired (append_history h u r) = true) ∧
    (∀ (env : Env) (st : SessionState) (raw : String), paired st.history = true →
      paired (chat_api env st raw).2.history = true) ∧
    (∀ st : SessionState, paired (reset_chat st).history = true) := by
  refine ⟨paired_append_history, ?_, fun _ => rfl⟩
  intro env st raw hp
  rcases chat_api_history_cases env st raw with hcase | ⟨u, r, hcase⟩
  · rw [hcase]; exact hp
  · rw [hcase]; exact paired_append_history _ _ _ hp

/-- C10 witness: the three parts of the invariant at concrete inputs. -/
theorem operations_preserve_paired_witness :
    paired (append_history [] "a" "b") = true ∧
    paired (chat_api env0 st_empty "hello").2.history = true ∧
    paired (reset_chat st_await).history = true :=
  ⟨operations_preserve_paired.1 [] "a" "b" rfl,
   operations_preserve_paired.2.1 env0 st_empty "hello" rfl,
   operations_preserve_paired.2.2 st_await⟩

/-! ## Claim C4: the distance ranker sorts, truncates and is stable -/

theorem pharmacy_rows_length (fmtS fmtF : ℝ → String) (lat lon : ℝ) :
    ∀ elements : List Element, (∀ el ∈ elements, (_element_coords el).isSome = true) →
      (pharmacy_rows fmtS fmtF lat lon elements).length = elements.length := by
  intro elements
  induction elements with
  | nil => intro _; rfl
  | cons e es ih =>
    intro h
    have he : (_element_coords e).isSome = true := h e (List.mem_cons_self e es)
    obtain ⟨⟨la, lo⟩, hc⟩ := Option.isSome_iff_exists.1 he
    have ih2 := ih (fun el hel => h el (List.mem_cons_of_mem e hel))
    simp only [pharmacy_rows, List.filterMap_cons, pharmacy_row, hc] at ih2 ⊢
    rw [List.length_cons, ih2]
    rfl

theorem rows_le_trans (a b c : ℝ × String) (hab : decide (a.1 ≤ b.1) = true)
    (hbc : decide (b.1 ≤ c.1) = true) : decide (a.1 ≤ c.1) = true := by
  simp only [decide_eq_true_eq] at hab hbc ⊢
  exact le_trans hab hbc

theorem rows_le_total (a b : ℝ × String) :
    (decide (a.1 ≤ b.1) || decide (b.1 ≤ a.1)) = true := by
  simp only [Bool.or_eq_true, decide_eq_true_eq]
  exact le_total a.1 b.1

/-- C4: when every POI record resolves a coordinate, the ranked list that
`format_pharmacy_list` renders has exactly `min N limit` entries, is sorted
non-decreasing by haversine distance, and ties at equal distance keep the
original adapter order (any equal-distance pair that is a sublist of the
unsorted rows remains a sublist of the sorted rows — stability). -/
theorem ranker_sorted_min_stable (fmtS fmtF : ℝ → String) (lat lon : ℝ)
    (elements : List Element) (limit : Nat)
    (h : ∀ el ∈ elements, (_element_coords el).isSome = true) :
    ((sorted_rows fmtS fmtF lat lon elements).take limit).length
        = min elements.length limit ∧
    List.Pairwise (fun a b : ℝ × String => a.1 ≤ b.1)
      ((sorted_rows fmtS fmtF lat lon elements).take limit) ∧
    (∀ a b : ℝ × String, a.1 = b.1 →
      List.Sublist [a, b] (pharmacy_rows fmtS fmtF lat lon elements) →
      List.Sublist [a, b] (sorted_rows fmtS fmtF lat lon elements)) := by
  refine ⟨?_, ?_, ?_⟩
  · unfold sorted_rows
    rw [List.length_take, List.length_mergeSort, pharmacy_rows_length fmtS fmtF lat lon elements h]
    exact Nat.min_comm limit elements.length
  · have hs := List.sorted_mergeSort rows_le_trans rows_le_total
      (pharmacy_rows fmtS fmtF lat lon elements)
    have hs2 : List.Pairwise (fun a b : ℝ × String => a.1 ≤ b.1)
        (sorted_rows fmtS fmtF lat lon elements) := by
      unfold sorted_rows
      exact hs.imp (fun hab => by simpa using hab)
    exact List.Pairwise.sublist (List.take_sublist limit _) hs2
  · intro a b hab hsub
    unfold sorted_rows
    exact List.pair_sublist_mergeSort rows_le_trans rows_le_total (by simp [hab]) hsub

/-- A node element with direct coordinates. -/
def el_node : Element := { lat := some 1, lon := some 2, center := none, tags := [] }

/-- A way element whose coordinate resolves through `center`. -/
def el_way : Element :=
  { lat := none, lon := none, center := some (3, 4), tags := [("name", "B")] }

/-- C4 witness: the ranker guarantees at a concrete two-element input. -/
theorem ranker_sorted_min_stable_witness :
    (∀ el ∈ [el_node, el_way], (_element_coords el).isSome = true) ∧
    (((sorted_rows (fun _ => "") (fun _ => "") 0 0 [el_node, el_way]).take 1).length
        = min ([el_node, el_way] : List Element).length 1 ∧
      List.Pairwise (fun a b : ℝ × String => a.1 ≤ b.1)
        ((sorted_rows (fun _ => "") (fun _ => "") 0 0 [el_node, el_way]).take 1) ∧
      (∀ a b : ℝ × String, a.1 = b.1 →
        List.Sublist [a, b] (pharmacy_rows (fun _ => "") (fun _ => "") 0 0 [el_node, el_way]) →
        List.Sublist [a, b] (sorted_rows (fun _ => "") (fun _ => "") 0 0 [el_node, el_way]))) := by
  have hres : ∀ el ∈ [el_node, el_way], (_element_coords el).isSome = true := by
    intro el hel
    rcases List.mem_cons.1 hel with hEq | hel2
    · subst hEq; rfl
    · rcases List.mem_cons.1 hel2 with hEq | hel3
      · subst hEq; rfl
      · cases hel3
  exact ⟨hres, ranker_sorted_min_stable (fun _ => "") (fun _ => "") 0 0 [el_node, el_way] 1 hres⟩

/-! ## Claim C6: the pending-limit invariant of the awaiting state -/

/-- The invariant: whenever the session is awaiting a postal code, a
captured result limit in `[1, 20]` is present. -/
def limit_inv (st : SessionState) : Prop :=
  st.awaiting_zip = some "pharmacies" →
    ∃ n, st.pharmacy_limit = some n ∧ 1 ≤ n ∧ n ≤ 20

theorem extract_requested_count_bounds (t : String) :
    1 ≤ extract_requested_count t 10 ∧ extract_requested_count t 10 ≤ 20 := by
  unfold extract_requested_count
  split
  · omega
  · omega

/-- Each `chat_api` branch either leaves the `awaiting_zip`/`pharmacy_limit`
fields untouched, clears both, or enters the awaiting state capturing the
clamped requested count. -/
theorem chat_api_state_cases (env : Env) (st : SessionState) (raw : String) :
    ((chat_api env st raw).2.awaiting_zip = st.awaiting_zip ∧
      (chat_api env st raw).2.pharmacy_limit = st.pharmacy_limit) ∨
    ((chat_api env st raw).2.awaiting_zip = none ∧
      (chat_api env st raw).2.pharmacy_limit = none) ∨
    ((chat_api env st raw).2.awaiting_zip = some "pharmacies" ∧
      (chat_api env st raw).2.pharmacy_limit =
        some (extract_requested_count (py_strip raw) 10)) := by
  unfold chat_api
  simp only
  split
  · left; exact ⟨rfl, rfl⟩
  · split
    · unfold awaiting_branch
      split
      · left; exact ⟨rfl, rfl⟩
      · split
        · right; left; exact ⟨rfl, rfl⟩
        · right; left; exact ⟨rfl, rfl⟩
    · split
      · split
        · unfold one_shot_branch
          split
          · left; exact ⟨rfl, rfl⟩
          · left; exact ⟨rfl, rfl⟩
        · right; right; exact ⟨rfl, rfl⟩
      · split
        · unfold health_branch
          split
          · left; exact ⟨rfl, rfl⟩
          · left; exact ⟨rfl, rfl⟩
          · left; exact ⟨rfl, rfl⟩
        · unfold general_branch
          simp only
          split
          · left; exact ⟨rfl, rfl⟩
          · split
            · left; exact ⟨rfl, rfl⟩
            · left; exact ⟨rfl, rfl⟩

/-- C6: every operation preserves the invariant that the awaiting state
carries a pending result limit in `[1, 20]`; the limit is captured on
entering the awaiting state, and is cleared whenever the mode returns to
`NONE` (on geocoding failure as well as on success). -/
theorem limit_inv_preserved (env : Env) (st : SessionState) (raw : String)
    (hinv : limit_inv st) :
    limit_inv (chat_api env st raw).2 ∧
    limit_inv (reset_chat st) ∧
    (st.awaiting_zip = some "pharmacies" →
      (chat_api env st raw).2.awaiting_zip = none →
      (chat_api env st raw).2.pharmacy_limit = none) := by
  rcases chat_api_state_cases env st raw with ⟨ha, hl⟩ | ⟨ha, hl⟩ | ⟨ha, hl⟩
  · refine ⟨?_, ?_, ?_⟩
    · intro hmode
      rw [hl]
      exact hinv (ha ▸ hmode)
    · intro hmode
      cases hmode
    · intro hsome hnone
      rw [ha, hsome] at hnone
      cases hnone
  · refine ⟨?_, ?_, ?_⟩
    · intro hmode
      rw [ha] at hmode
      cases hmode
    · intro hmode
      cases hmode
    · intro _ _
      exact hl
  · refine ⟨?_, ?_, ?_⟩
    · intro _
      refine ⟨extract_requested_count (py_strip raw) 10, hl, ?_⟩
      exact extract_requested_count_bounds (py_strip raw)
    · intro hmode
      cases hmode
    · intro _ hnone
      rw [ha] at hnone
      cases hnone

/-- C6 witness: the invariant guarantees at a concrete awaiting state. -/
theorem limit_inv_preserved_witness :
    limit_inv st_await ∧
    (limit_inv (chat_api env0 st_await "hello").2 ∧
      limit_inv (reset_chat st_await) ∧
      (st_await.awaiting_zip = some "pharmacies" →
        (chat_api env0 st_await "hello").2.awaiting_zip = none →
        (chat_api env0 st_await "hello").2.pharmacy_limit = none)) := by
  have hinv : limit_inv st_await := fun _ => ⟨10, rfl, by omega, by omega⟩
  exact ⟨hinv, limit_inv_preserved env0 st_await "hello" hinv⟩

/-! ## Claim C5: awaiting state, message without a postal code

The claim fails on the empty message: an empty (or all-whitespace) message
contains no postal-code token, yet the handler rejects it with the fixed
400 client error before routing, not with the clarification prompt. -/

/-- C5 counterexample: in the awaiting state, the empty message (which
contains no postal-code token) is answered with the 400 error, not the
clarification prompt (state is still unchanged). -/
theorem awaiting_empty_message_not_reprompted :
    zip_search "" = none ∧
    st_await.awaiting_zip = some "pharmacies" ∧
    chat_api env0 st_await "" = (ApiResult.errorResp "Message is required" 400, st_await) ∧
    ApiResult.errorResp "Message is required" 400 ≠
      ApiResult.reply "Please enter a valid 5-digit ZIP code (e.g., 10001)." := by
  refine ⟨rfl, rfl, by decide, by decide⟩

/-- C5 (amended): in the awaiting state, every message that is nonempty
after stripping and contains no postal-code token is answered with the
clarification prompt, and the session state — mode, pending limit and
history — is completely unchanged. -/
theorem awaiting_reprompt (env : Env) (st : SessionState) (raw : String)
    (hmode : st.awaiting_zip = some "pharmacies")
    (hne : py_strip raw ≠ "")
    (hnozip : zip_search (py_strip raw) = none) :
    chat_api env st raw =
      (ApiResult.reply "Please enter a valid 5-digit ZIP code (e.g., 10001).", st) := by
  unfold chat_api
  simp only
  rw [if_neg hne, hmode, if_pos rfl]
  unfold awaiting_branch
  rw [hnozip]

/-- C5 witness: the amended re-prompt at a concrete non-code message. -/
theorem awaiting_reprompt_witness :
    chat_api env0 st_await "hello" =
      (ApiResult.reply "Please enter a valid 5-digit ZIP code (e.g., 10001).", st_await) :=
  awaiting_reprompt env0 st_await "hello" rfl (by decide) (by decide)

/-! ## Claim C9: one-shot branch, geocoding failure leaves state unchanged -/

/-- C9: with no awaiting state, a pharmacy/follow-up message carrying a
postal code whose geocoding fails is answered with the ZIP-not-found reply
and the whole session state (mode, pending limit, history) is unchanged. -/
theorem one_shot_geocode_failure (env : Env) (st : SessionState) (raw z : String)
    (hmode : st.awaiting_zip = none)
    (hne : py_strip raw ≠ "")
    (hlooks : (pharm_intent_match (py_strip raw) || followup_match (py_strip raw)) = true)
    (hzip : zip_search (py_strip raw) = some z)
    (hgeo : env.geocode_zip z = none) :
    chat_api env st raw =
      (ApiResult.reply "Sorry, I could not find that ZIP code. Please try another.", st) := by
  unfold chat_api
  simp only
  rw [if_neg hne, hmode]
  rw [if_neg (by simp), hlooks, if_pos rfl, hzip]
  simp only
  unfold one_shot_branch
  rw [hgeo]

/-- C9 witness: a concrete one-shot request whose geocoding fails. -/
theorem one_shot_geocode_failure_witness :
    chat_api env0 st_empty "pharmacy 99999" =
      (ApiResult.reply "Sorry, I could not find that ZIP code. Please try another.", st_empty) :=
  one_shot_geocode_failure env0 st_empty "pharmacy 99999" "99999" rfl (by decide)
    (by decide) (by decide) rfl

/-! ## Claim C3: pharmacy intent takes precedence over health intent -/

/-- C3: a message matching the pharmacy vocabulary never has health intent
(`is_health_question` is false whenever the pharmacy pattern matches), and
with no awaiting state such a message is routed to the POI one-shot branch
(postal code present) or the clarification branch (no postal code) — never
the health branch. -/
theorem pharmacy_precedence_over_health :
    (∀ t : String, pharm_intent_match t = true → is_health_question t = false) ∧
    (∀ (env : Env) (st : SessionState) (raw : String),
      py_strip raw ≠ "" → st.awaiting_zip = none →
      pharm_intent_match (py_strip raw) = true →
      chat_api env st raw =
        (match zip_search (py_strip raw) with
          | some z => one_shot_branch env st (py_strip raw) z
          | none => clarify_branch st (py_strip raw))) := by
  constructor
  · intro t hp
    unfold is_health_question
    rw [hp]
    rfl
  · intro env st raw hne hmode hp
    unfold chat_api
    simp only
    rw [if_neg hne, hmode]
    rw [if_neg (by simp), hp]
    rw [Bool.true_or, if_pos rfl]

/-- C3 witness: both parts at a concrete message that matches both the
pharmacy vocabulary (`pharmacy`) and the health vocabulary (`ibuprofen`) —
it is routed to the clarification branch, not the health branch. -/
theorem pharmacy_precedence_over_health_witness :
    is_health_question "which pharmacy sells ibuprofen" = false ∧
    chat_api env0 st_empty "which pharmacy sells ibuprofen" =
      clarify_branch st_empty "which pharmacy sells ibuprofen" := by
  constructor
  · exact pharmacy_precedence_over_health.1 "which pharmacy sells ibuprofen" (by decide)
  · have h := pharmacy_precedence_over_health.2 env0 st_empty "which pharmacy sells ibuprofen"
      (by decide) rfl (by decide)
    simpa using h

/-! ## Claim C1: surfacing of language-model failures

The claim fails for the health branch (branch 4): `answer_health_with_cse`
wraps `send_message` in a `try` whose handler returns `None`, and the
router then replies with the fixed decline text — a normal conversational
reply, not an error.  Only the general-chat branch (branch 5) surfaces a
`send_message` exception as a distinguishable error response. -/

/-- C1 counterexample: a health-intent message (`"fever"`), an environment
whose CSE search returns a usable source but whose language-model call
raises — the handler returns the decline text as a normal reply (and even
logs it to history), not an error response. -/
theorem health_branch_swallows_model_failure :
    is_health_question "fever" = true ∧
    env_lm_fail.send_message [] (health_prompt "fever" (env_lm_fail.cse_search "fever" 5)) =
      Except.error "boom" ∧
    chat_api env_lm_fail st_empty "fever" =
      (ApiResult.reply decline_text,
        { history := [⟨"user", "fever"⟩, ⟨"model", decline_text⟩],
          awaiting_zip := none, pharmacy_limit := none }) ∧
    (∀ e s, ApiResult.reply decline_text ≠ ApiResult.errorResp e s) ∧
    (∀ e, ApiResult.reply decline_text ≠ ApiResult.raised e) := by
  refine ⟨by decide, rfl, by decide, ?_, ?_⟩
  · intro e s h
    cases h
  · intro e h
    cases h

/-- C1 (amended): in the general-chat branch (branch 5) — no awaiting
state, no pharmacy/follow-up intent, no health intent — an exception from
the language-model `send_message` call is surfaced to the caller as a
distinguishable 500 error response with the exception text, and the
session state is unchanged; the health branch instead converts such a
failure into the decline reply (see the counterexample). -/
theorem general_branch_surfaces_model_failure (env : Env) (st : SessionState)
    (raw e : String)
    (hmode : st.awaiting_zip = none)
    (hne : py_strip raw ≠ "")
    (hp : pharm_intent_match (py_strip raw) = false)
    (hf : followup_match (py_strip raw) = false)
    (hh : is_health_question (py_strip raw) = false)
    (hm : env.get_model = Except.ok ())
    (hs : env.send_message
        (if st.history.length > 4 then st.history.drop (st.history.length - 4) else st.history)
        (py_strip raw) = Except.error e) :
    chat_api env st raw = (ApiResult.errorResp e 500, st) := by
  unfold chat_api
  simp only
  rw [if_neg hne, hmode]
  rw [if_neg (by simp), hp, hf]
  rw [Bool.or_self, if_neg (by simp), hh, if_neg (by simp)]
  unfold general_branch
  simp only
  rw [hm, hs]

/-- C1 witness: the amended guarantee at a concrete general-chat message
with a failing model. -/
theorem general_branch_surfaces_model_failure_witness :
    chat_api env_lm_fail st_empty "hi" = (ApiResult.errorResp "boom" 500, st_empty) :=
  general_branch_surfaces_model_failure env_lm_fail st_empty "hi" "boom" rfl (by decide)
    (by decide) (by decide) (by decide) rfl rfl

end MedAssistant
